import Mathlib

/-!
Verification of the dtdrafts draft-article utility.

The Rust sources (src/lib.rs and src/main.rs) are shallowly embedded here:
pure functions become Lean functions over explicit data, the paginated HTTP
fetch loop becomes a fuel-indexed recursion over an abstract page server, and
the JSON cache file becomes an explicit JSON value / file-state type.
Strings are Lean `String`s; Rust `to_lowercase` is modelled as per-character
ASCII lowercasing (`Char.toLower` mapped over the characters), and Rust
`str::contains` as substring search over the character list.
-/

namespace Dtdrafts

/-- Embeds `ArticleUser` from src/lib.rs (also duplicated in src/main.rs):
a record holding the author's username. -/
structure ArticleUser where
  username : String
deriving Repr, DecidableEq

/-- Embeds `Article` from src/lib.rs (also duplicated in src/main.rs).
`u64` is modelled as `Nat` (no arithmetic is ever performed on `id`). -/
structure Article where
  id : Nat
  title : String
  description : Option String
  body_markdown : Option String
  url : String
  canonical_url : Option String
  url_with_preview : Option String
  published : Bool
  created_at : Option String
  updated_at : Option String
  tags : Option (List String)
  slug : String
  user : ArticleUser
deriving Repr, DecidableEq

/-- Models Rust `str::to_lowercase`: lowercase every character. -/
def strToLower (s : String) : String := ⟨s.data.map Char.toLower⟩

/-- Helper for substring search: does `needle` occur at the very front of
`hay`? (Models the inner comparison of Rust substring search.) -/
def leadEq : List Char → List Char → Bool
  | [], _ => true
  | _ :: _, [] => false
  | c :: cs, d :: ds => c == d && leadEq cs ds

/-- Does `needle` occur as a contiguous run anywhere in `hay`? -/
def subSeqAt : List Char → List Char → Bool
  | needle, [] => needle.isEmpty
  | needle, d :: ds => leadEq needle (d :: ds) || subSeqAt needle ds

/-- Models Rust `str::contains` with a string pattern: substring containment. -/
def strContains (hay needle : String) : Bool :=
  subSeqAt needle.data hay.data

/-- Embeds `search_articles` from src/lib.rs lines 146-160: lowercase the
query, then keep the unpublished articles whose lowercased title contains it,
or whose lowercased markdown body (when present) contains it, or one of whose
lowercased tags (defaulting to the empty tag list) contains it. -/
def search_articles (articles : List Article) (query : String) : List Article :=
  let query_lower := strToLower query
  articles.filter fun article =>
    !article.published &&
      (strContains (strToLower article.title) query_lower ||
        (match article.body_markdown with
          | some body => strContains (strToLower body) query_lower
          | none => false) ||
        (article.tags.getD []).any fun tag =>
          strContains (strToLower tag) query_lower)

/-- Embeds `get_draft_articles` from src/lib.rs lines 162-167: keep the
articles with `published == false`, in order. -/
def get_draft_articles (articles : List Article) : List Article :=
  articles.filter fun article => !article.published

/-- Embeds the duplicate `search_articles` from src/main.rs lines 170-184
(textually the same filter as the library copy). -/
def search_articles_main (articles : List Article) (query : String) : List Article :=
  let query_lower := strToLower query
  articles.filter fun article =>
    !article.published &&
      (strContains (strToLower article.title) query_lower ||
        (match article.body_markdown with
          | some body => strContains (strToLower body) query_lower
          | none => false) ||
        (article.tags.getD []).any fun tag =>
          strContains (strToLower tag) query_lower)

/-- Embeds the duplicate `get_draft_articles` from src/main.rs lines 186-191. -/
def get_draft_articles_main (articles : List Article) : List Article :=
  articles.filter fun article => !article.published

/-- Lines printed for each article (1-indexed) by `display_articles` in
src/lib.rs lines 169-182: the numbered title, the edit URL, a blank line.
Terminal colouring is presentation-only and is not modelled. -/
def renderLines : Nat → List Article → List String
  | _, [] => []
  | i, article :: rest =>
    (Nat.repr (i + 1) ++ ". " ++ article.title) ::
    ("https://dev.to/" ++ article.user.username ++ "/" ++ article.slug ++ "/edit") ::
    "" :: renderLines (i + 1) rest

/-- Embeds `display_articles` from src/lib.rs lines 169-182, as the list of
lines it prints. -/
def display_articles (articles : List Article) : List String :=
  if articles.isEmpty then
    ["No draft articles found."]
  else
    (Nat.repr articles.length ++ " draft article(s) found:\n") :: renderLines 0 articles

/-- Lines printed per article by the duplicate `display_articles` in
src/main.rs lines 193-205; its format string is
`"@https://dev.to/{}/{}/edit"`, so every edit URL carries a leading `@`. -/
def renderLinesMain : Nat → List Article → List String
  | _, [] => []
  | i, article :: rest =>
    (Nat.repr (i + 1) ++ ". " ++ article.title) ::
    ("@https://dev.to/" ++ article.user.username ++ "/" ++ article.slug ++ "/edit") ::
    "" :: renderLinesMain (i + 1) rest

/-- Embeds the duplicate `display_articles` from src/main.rs lines 193-205,
as the list of lines it prints. -/
def display_articles_main (articles : List Article) : List String :=
  if articles.isEmpty then
    ["No draft articles found."]
  else
    (Nat.repr articles.length ++ " draft article(s) found:\n") :: renderLinesMain 0 articles

/-- The first sample article of the repository's test fixture
(src/tests/lib_tests.rs, src/main.rs `sample_articles`). -/
def sampleRustTips : Article :=
  { id := 1
    title := "Rust Tips"
    description := some "Learn Rust"
    body_markdown := some "Rust is great for CLI tools."
    url := "https://dev.to/user/rust-tips"
    canonical_url := none
    url_with_preview := none
    published := false
    created_at := none
    updated_at := none
    tags := some ["rust", "cli"]
    slug := "rust-tips"
    user := { username := "user" } }

/-- The second sample article of the test fixture (the published one). -/
def sampleKotlinGuide : Article :=
  { id := 2
    title := "Kotlin Guide"
    description := some "Kotlin basics"
    body_markdown := some "Kotlin is a modern language."
    url := "https://dev.to/user/kotlin-guide"
    canonical_url := none
    url_with_preview := none
    published := true
    created_at := none
    updated_at := none
    tags := some ["kotlin", "android"]
    slug := "kotlin-guide"
    user := { username := "user" } }

/-- The third sample article of the test fixture. -/
def sampleCliTricks : Article :=
  { id := 3
    title := "CLI Tricks"
    description := some "Tips for CLI"
    body_markdown := some "Use Rust or Python for CLI."
    url := "https://dev.to/user/cli-tricks"
    canonical_url := none
    url_with_preview := none
    published := false
    created_at := none
    updated_at := none
    tags := some ["cli", "tools"]
    slug := "cli-tricks"
    user := { username := "user" } }

/-- The test fixture list. -/
def sampleArticles : List Article := [sampleRustTips, sampleKotlinGuide, sampleCliTricks]

example : search_articles sampleArticles "rust" = [sampleRustTips, sampleCliTricks] := by decide

example : search_articles sampleArticles "modern language" = [] := by decide

example : search_articles sampleArticles "python" = [sampleCliTricks] := by decide

example : search_articles sampleArticles "cli" = [sampleRustTips, sampleCliTricks] := by decide

example : get_draft_articles sampleArticles = [sampleRustTips, sampleCliTricks] := by decide

/-- Abstract reply of the remote API to one page request, as observed by
`get_my_articles` (src/lib.rs lines 50-80): the transport may fail, or an
HTTP response arrives with a status code and — when the body parses as a
JSON list of articles — the parsed list (`none` models a parse failure). -/
inductive PageReply where
  | transportError
  | reply (status : Nat) (parsed : Option (List Article))

/-- The error cases of the fetch loop in src/lib.rs lines 50-80: transport
failure, non-success HTTP status, JSON parse failure. -/
inductive FetchError where
  | transport
  | badStatus (status : Nat)
  | parseFail
deriving Repr, DecidableEq

/-- Models `reqwest::StatusCode::is_success`: a 2xx status. -/
def statusIsSuccess (status : Nat) : Bool :=
  decide (200 ≤ status) && decide (status < 300)

/-- The user-facing message attached to each fetch error in src/lib.rs:
the `context` strings of lines 59 and 70 and the `anyhow!` format string of
lines 62-65 (whose `{}` renders the status). -/
def errMessage : FetchError → String
  | .transport => "Failed to fetch articles from dev.to API"
  | .badStatus status =>
      "API request failed with status: " ++ Nat.repr status ++ ". Please check your API key."
  | .parseFail => "Failed to parse JSON response"

/-- Embeds the `loop` of `get_my_articles` (src/lib.rs lines 50-80), fuel
indexed so the recursion is total: at each page, a transport error, a
non-success status, or a parse failure aborts with the corresponding error;
an empty page stops with the accumulated articles; a non-empty page is
appended and the page number advances by one. The returned `Nat` is the
number of the page at which the loop stopped, i.e. the total number of
requests issued. `none` means the fuel ran out before the loop stopped. -/
def fetchPages (server : Nat → PageReply) :
    Nat → Nat → List Article → Option (Except FetchError (List Article) × Nat)
  | 0, _, _ => none
  | fuel + 1, page, acc =>
    match server page with
    | .transportError => some (.error .transport, page)
    | .reply status parsed =>
      if statusIsSuccess status then
        match parsed with
        | none => some (.error .parseFail, page)
        | some articles =>
          if articles.isEmpty then some (.ok acc, page)
          else fetchPages server fuel (page + 1) (acc ++ articles)
      else some (.error (.badStatus status), page)

/-- Embeds `get_my_articles` (src/lib.rs lines 44-84): run the fetch loop
from page 1 with an empty accumulator. -/
def get_my_articles (server : Nat → PageReply) (fuel : Nat) :
    Option (Except FetchError (List Article) × Nat) :=
  fetchPages server fuel 1 []

/-- A JSON value, the target of serde serialization as used by the cache
store (numbers restricted to the naturals actually serialized: `u64` ids). -/
inductive JsonVal where
  | null
  | bool (b : Bool)
  | num (n : Nat)
  | str (s : String)
  | arr (elems : List JsonVal)
  | obj (fields : List (String × JsonVal))
deriving Repr

/-- serde serialization of an `Option<String>` field: `null` or a string. -/
def optStrToJson : Option String → JsonVal
  | none => .null
  | some s => .str s

/-- serde serialization of the `Option<Vec<String>>` tags field. -/
def optTagsToJson : Option (List String) → JsonVal
  | none => .null
  | some ts => .arr (ts.map .str)

/-- serde serialization of `ArticleUser` (derive(Serialize) in src/lib.rs). -/
def articleUserToJson (u : ArticleUser) : JsonVal :=
  .obj [("username", .str u.username)]

/-- serde serialization of `Article` (derive(Serialize) in src/lib.rs):
an object with one field per struct field, in declaration order. -/
def articleToJson (a : Article) : JsonVal :=
  .obj [("id", .num a.id),
        ("title", .str a.title),
        ("description", optStrToJson a.description),
        ("body_markdown", optStrToJson a.body_markdown),
        ("url", .str a.url),
        ("canonical_url", optStrToJson a.canonical_url),
        ("url_with_preview", optStrToJson a.url_with_preview),
        ("published", .bool a.published),
        ("created_at", optStrToJson a.created_at),
        ("updated_at", optStrToJson a.updated_at),
        ("tags", optTagsToJson a.tags),
        ("slug", .str a.slug),
        ("user", articleUserToJson a.user)]

/-- serde serialization of the whole article list: a JSON array. -/
def articlesToJson (articles : List Article) : JsonVal :=
  .arr (articles.map articleToJson)

/-- Field lookup in a deserialized JSON object (serde matches fields by
name, in any order). -/
def getField (fields : List (String × JsonVal)) (name : String) : Option JsonVal :=
  match fields.find? (fun p => p.1 == name) with
  | some p => some p.2
  | none => none

/-- Deserialize a JSON value as a `u64`-style number. -/
def asNat : JsonVal → Option Nat
  | .num n => some n
  | _ => none

/-- Deserialize a JSON value as a string. -/
def asStr : JsonVal → Option String
  | .str s => some s
  | _ => none

/-- Deserialize a JSON value as a boolean. -/
def asBool : JsonVal → Option Bool
  | .bool b => some b
  | _ => none

/-- Deserialize a JSON value as an `Option<String>` (`null` is `None`). -/
def asOptStr : JsonVal → Option (Option String)
  | .null => some none
  | .str s => some (some s)
  | _ => none

/-- Deserialize a JSON array's elements as strings. -/
def strListOfJson : List JsonVal → Option (List String)
  | [] => some []
  | .str s :: rest => (strListOfJson rest).map (s :: ·)
  | _ => none

/-- Deserialize a JSON value as the `Option<Vec<String>>` tags field. -/
def asOptTags : JsonVal → Option (Option (List String))
  | .null => some none
  | .arr es => (strListOfJson es).map some
  | _ => none

/-- Deserialize an `Option<String>` struct field; serde treats a missing
`Option` field as `None`. -/
def decodeOptStrField (fields : List (String × JsonVal)) (name : String) :
    Option (Option String) :=
  match getField fields name with
  | none => some none
  | some v => asOptStr v

/-- Deserialize the `Option<Vec<String>>` tags field, missing meaning `None`. -/
def decodeOptTagsField (fields : List (String × JsonVal)) (name : String) :
    Option (Option (List String)) :=
  match getField fields name with
  | none => some none
  | some v => asOptTags v

/-- serde deserialization of `ArticleUser` (derive(Deserialize)). -/
def articleUserFromJson : JsonVal → Option ArticleUser
  | .obj fields =>
    match getField fields "username" with
    | some (.str s) => some { username := s }
    | _ => none
  | _ => none

/-- serde deserialization of `Article` (derive(Deserialize) in src/lib.rs):
every non-`Option` field must be present with the right shape; `Option`
fields accept `null` (or absence) as `None`. -/
def articleFromJson : JsonVal → Option Article
  | .obj fields => do
    let id ← (getField fields "id").bind asNat
    let title ← (getField fields "title").bind asStr
    let description ← decodeOptStrField fields "description"
    let body_markdown ← decodeOptStrField fields "body_markdown"
    let url ← (getField fields "url").bind asStr
    let canonical_url ← decodeOptStrField fields "canonical_url"
    let url_with_preview ← decodeOptStrField fields "url_with_preview"
    let published ← (getField fields "published").bind asBool
    let created_at ← decodeOptStrField fields "created_at"
    let updated_at ← decodeOptStrField fields "updated_at"
    let tags ← decodeOptTagsField fields "tags"
    let slug ← (getField fields "slug").bind asStr
    let user ← (getField fields "user").bind articleUserFromJson
    some { id, title, description, body_markdown, url, canonical_url,
           url_with_preview, published, created_at, updated_at, tags, slug, user }
  | _ => none

/-- Deserialize a list of JSON values as articles; any failure is fatal. -/
def articleListFromJson : List JsonVal → Option (List Article)
  | [] => some []
  | e :: rest =>
    match articleFromJson e with
    | some a => (articleListFromJson rest).map (a :: ·)
    | none => none

/-- serde deserialization of `Vec<Article>`: the value must be a JSON array
whose every element deserializes as an `Article`. -/
def articlesFromJson : JsonVal → Option (List Article)
  | .arr es => articleListFromJson es
  | _ => none

/-- State of the cache file on disk: absent, present but not parseable as
JSON, or present and holding the JSON value `v`. -/
inductive CacheFileState where
  | absent
  | malformedText
  | json (v : JsonVal)

/-- Embeds `save_articles_cache` (src/lib.rs lines 127-134) at the JSON
level: the cache file afterwards holds the serialization of the list. -/
def save_articles_cache (articles : List Article) : CacheFileState :=
  .json (articlesToJson articles)

/-- Embeds `load_articles_cache` (src/lib.rs lines 136-144): an absent file
yields the empty list; otherwise the content must deserialize as a
`Vec<Article>`, and any malformed content is an error. -/
def load_articles_cache : CacheFileState → Except String (List Article)
  | .absent => .ok []
  | .malformedText => .error "Failed to parse cache file"
  | .json v =>
    match articlesFromJson v with
    | some articles => .ok articles
    | none => .error "Failed to parse cache file"

/-- Outcome of the article-acquisition step of `main`. -/
inductive AcquireOutcome where
  | gotArticles (articles : List Article)
  | fetchFailed (e : FetchError)
  | cacheLoadFailed
deriving Repr

/-- Embeds the article-acquisition step of `main` (src/main.rs lines
223-241): if the refresh flag is set or the cache loads as empty (a load
error counting as empty via `unwrap_or_default`), run the full fetch and —
only when it succeeds — overwrite the cache; otherwise use the cache.
Returns the outcome and the cache file state afterwards; `none` when the
fuel for the fetch loop ran out. -/
def acquireArticles (refresh : Bool) (server : Nat → PageReply) (fuel : Nat)
    (fs : CacheFileState) : Option (AcquireOutcome × CacheFileState) :=
  let cachedOrDefault :=
    match load_articles_cache fs with
    | .ok articles => articles
    | .error _ => []
  if refresh || cachedOrDefault.isEmpty then
    match get_my_articles server fuel with
    | none => none
    | some (.error e, _) => some (.fetchFailed e, fs)
    | some (.ok articles, _) => some (.gotArticles articles, save_articles_cache articles)
  else
    match load_articles_cache fs with
    | .ok articles => some (.gotArticles articles, fs)
    | .error _ => some (.cacheLoadFailed, fs)

/-- The search predicate as the specification words it (§4.4): an article
matches if it is unpublished AND (its title contains the lowercased query,
OR its markdown body — if present — contains it, OR any tag — if tags are
present — contains it), all matching case-insensitive. -/
def specMatches (query : String) (article : Article) : Bool :=
  let q := strToLower query
  !article.published &&
    (strContains (strToLower article.title) q ||
      (match article.body_markdown with
        | some body => strContains (strToLower body) q
        | none => false) ||
      (match article.tags with
        | some ts => ts.any fun tag => strContains (strToLower tag) q
        | none => false))

theorem char_toNat_ofNat (n : Nat) (h : n.isValidChar) : (Char.ofNat n).toNat = n := by
  simp [Char.ofNat, h]
  rfl

theorem char_toLower_eq (c : Char) :
    Char.toLower c = if c.toNat ≥ 65 ∧ c.toNat ≤ 90 then Char.ofNat (c.toNat + 32) else c := rfl

theorem char_toLower_idem (c : Char) : Char.toLower (Char.toLower c) = Char.toLower c := by
  rw [char_toLower_eq c]
  by_cases h : c.toNat ≥ 65 ∧ c.toNat ≤ 90
  · rw [if_pos h, char_toLower_eq, char_toNat_ofNat _ (Or.inl (by omega))]
    rw [if_neg (by omega)]
  · rw [if_neg h, char_toLower_eq, if_neg h]

theorem map_toLower_idem (l : List Char) :
    (l.map Char.toLower).map Char.toLower = l.map Char.toLower := by
  induction l with
  | nil => rfl
  | cons c cs ih => simp only [List.map_cons, ih, char_toLower_idem]

theorem strToLower_idem (s : String) : strToLower (strToLower s) = strToLower s := by
  show String.mk ((s.data.map Char.toLower).map Char.toLower) = String.mk (s.data.map Char.toLower)
  rw [map_toLower_idem]

/-- C1: `search_articles` returns exactly the subsequence (order preserved)
of articles that are unpublished and whose lowercased title, lowercased
body (when present), or one of whose lowercased tags (when present)
contains the lowercased query; missing body or tags is a non-match on that
axis, and no published article is ever returned. -/
theorem search_matches_spec_c1 (articles : List Article) (query : String) :
    search_articles articles query = articles.filter (specMatches query) ∧
    (search_articles articles query).Sublist articles ∧
    (search_articles articles query).all (fun a => !a.published) = true := by
  refine ⟨?_, List.filter_sublist _, ?_⟩
  · unfold search_articles specMatches
    apply List.filter_congr
    intro a _
    cases h : a.tags <;> simp [h]
  · simp only [search_articles, List.all_eq_true]
    intro a ha
    have h2 := (List.mem_filter.mp ha).2
    simp only [Bool.and_eq_true] at h2
    exact h2.1

/-- C3: `get_draft_articles` returns exactly the subsequence of unpublished
articles, order preserved, and its length plus the number of published
articles equals the input length. -/
theorem drafts_subsequence_c3 (articles : List Article) :
    get_draft_articles articles = articles.filter (fun a => !a.published) ∧
    (get_draft_articles articles).Sublist articles ∧
    (get_draft_articles articles).length
      + (articles.filter (fun a => a.published)).length = articles.length := by
  refine ⟨rfl, List.filter_sublist _, ?_⟩
  unfold get_draft_articles
  induction articles with
  | nil => rfl
  | cons a rest ih =>
    cases h : a.published <;> simp [List.filter_cons, h] <;> omega

/-- C9: lowercasing the query does not change the search result; in
particular searching for "RUST" and "rust" agree. -/
theorem search_case_insensitive_c9 (articles : List Article) (query : String) :
    search_articles articles (strToLower query) = search_articles articles query ∧
    search_articles articles "RUST" = search_articles articles "rust" := by
  constructor
  · unfold search_articles
    rw [strToLower_idem]
  · have h : strToLower "RUST" = strToLower "rust" := by decide
    unfold search_articles
    rw [h]

/-- C10: the duplicated pure filter functions in src/main.rs agree
extensionally with the library copies in src/lib.rs. -/
theorem duplicate_filters_agree_c10 (articles : List Article) (query : String) :
    search_articles_main articles query = search_articles articles query ∧
    get_draft_articles_main articles = get_draft_articles articles :=
  ⟨rfl, rfl⟩

/-- C2: evaluated at a one-article list, the library `display_articles`
emits exactly the concatenated edit URL, but the `display_articles` copy in
src/main.rs that `main` actually calls emits it with a stray leading `@`,
contradicting the claim that nothing is prepended. -/
theorem display_edit_url_c2 :
    display_articles [sampleRustTips] =
      ["1 draft article(s) found:\n", "1. Rust Tips",
        "https://dev.to/user/rust-tips/edit", ""] ∧
    display_articles_main [sampleRustTips] =
      ["1 draft article(s) found:\n", "1. Rust Tips",
        "@https://dev.to/user/rust-tips/edit", ""] ∧
    "@https://dev.to/user/rust-tips/edit" ≠ "https://dev.to/user/rust-tips/edit" ∧
    display_articles [] = ["No draft articles found."] ∧
    display_articles_main [] = ["No draft articles found."] :=
  ⟨rfl, rfl, by decide, rfl, rfl⟩

theorem leadEq_append (xs ys : List Char) : leadEq xs (xs ++ ys) = true := by
  induction xs with
  | nil => rfl
  | cons c cs ih => simp [leadEq, ih]

theorem subSeqAt_self_append (n ys : List Char) : subSeqAt n (n ++ ys) = true := by
  cases n with
  | nil => cases ys <;> rfl
  | cons c cs =>
    have h := leadEq_append (c :: cs) ys
    simp only [subSeqAt, List.cons_append, Bool.or_eq_true]
    exact Or.inl h

theorem subSeqAt_append_right (n l r : List Char) (h : subSeqAt n r = true) :
    subSeqAt n (l ++ r) = true := by
  induction l with
  | nil => exact h
  | cons d ds ih => simp [subSeqAt, ih]

theorem strData_append (a b : String) : (a ++ b).data = a.data ++ b.data := rfl

theorem strContains_mid (a k b : String) : strContains (a ++ k ++ b) k = true := by
  unfold strContains
  rw [strData_append, strData_append, List.append_assoc]
  exact subSeqAt_append_right _ _ _ (subSeqAt_self_append _ _)

theorem strContains_right (a b k : String) (h : strContains b k = true) :
    strContains (a ++ b) k = true := by
  unfold strContains at h ⊢
  rw [strData_append]
  exact subSeqAt_append_right _ _ _ h

/-- C7: whenever a page request comes back with a non-success HTTP status,
the fetch loop stops at that very page (the returned request count is the
current page number, so no further request is issued) with a `badStatus`
error whose message contains the status code and the hint to check the API
key. -/
theorem bad_status_fails_c7 (server : Nat → PageReply) (fuel page : Nat)
    (acc : List Article) (status : Nat) (parsed : Option (List Article))
    (hresp : server page = .reply status parsed)
    (hbad : statusIsSuccess status = false) :
    fetchPages server (fuel + 1) page acc = some (.error (.badStatus status), page) ∧
    strContains (errMessage (.badStatus status)) (Nat.repr status) = true ∧
    strContains (errMessage (.badStatus status)) "Please check your API key" = true := by
  refine ⟨?_, ?_, ?_⟩
  · simp [fetchPages, hresp, hbad]
  · exact strContains_mid "API request failed with status: " (Nat.repr status)
      ". Please check your API key."
  · exact strContains_right ("API request failed with status: " ++ Nat.repr status)
      ". Please check your API key." "Please check your API key" (by decide)

/-- A server whose every reply is a 404 with an unparseable body. -/
def srvNotFound : Nat → PageReply := fun _ => .reply 404 none

theorem bad_status_fails_c7_witness :
    fetchPages srvNotFound 1 1 [] = some (.error (.badStatus 404), 1) ∧
    strContains (errMessage (.badStatus 404)) (Nat.repr 404) = true ∧
    strContains (errMessage (.badStatus 404)) "Please check your API key" = true :=
  bad_status_fails_c7 srvNotFound 0 1 [] 404 none rfl rfl

/-- C4: the fetch loop stops exactly when a page comes back empty — an
empty first page means one single request returning the empty list, an
empty second page after a non-empty first means exactly two requests, and a
non-empty successful page appends its articles in order and advances the
page number by one. -/
theorem pagination_terminates_c4 :
    (∀ (server : Nat → PageReply) (fuel status : Nat),
      statusIsSuccess status = true →
      server 1 = .reply status (some []) →
      get_my_articles server (fuel + 1) = some (.ok [], 1)) ∧
    (∀ (server : Nat → PageReply) (fuel status1 status2 : Nat) (arts : List Article),
      statusIsSuccess status1 = true → statusIsSuccess status2 = true →
      server 1 = .reply status1 (some arts) → arts ≠ [] →
      server 2 = .reply status2 (some []) →
      get_my_articles server (fuel + 2) = some (.ok arts, 2)) ∧
    (∀ (server : Nat → PageReply) (fuel page : Nat) (acc arts : List Article) (status : Nat),
      server page = .reply status (some arts) → statusIsSuccess status = true → arts ≠ [] →
      fetchPages server (fuel + 1) page acc = fetchPages server fuel (page + 1) (acc ++ arts)) ∧
    (∀ (server : Nat → PageReply) (fuel page : Nat) (acc res : List Article) (p : Nat),
      fetchPages server fuel page acc = some (.ok res, p) →
      ∃ status, server p = .reply status (some []) ∧ statusIsSuccess status = true) := by
  refine ⟨?_, ?_, ?_, ?_⟩
  · intro server fuel status hs h1
    simp [get_my_articles, fetchPages, h1, hs]
  · intro server fuel status1 status2 arts hs1 hs2 h1 hne h2
    cases arts with
    | nil => exact absurd rfl hne
    | cons a as =>
      show fetchPages server (fuel + 1 + 1) 1 [] = _
      simp [fetchPages, h1, h2, hs1, hs2]
  · intro server fuel page acc arts status hresp hs hne
    cases arts with
    | nil => exact absurd rfl hne
    | cons a as => simp [fetchPages, hresp, hs]
  · intro server fuel
    induction fuel with
    | zero =>
      intro page acc res p h
      simp [fetchPages] at h
    | succ f ih =>
      intro page acc res p h
      unfold fetchPages at h
      cases hs : server page with
      | transportError => rw [hs] at h; simp at h
      | reply status parsed =>
        rw [hs] at h
        cases hsucc : statusIsSuccess status with
        | false => simp [hsucc] at h
        | true =>
          cases parsed with
          | none => simp [hsucc] at h
          | some arts =>
            cases harts : arts.isEmpty with
            | true =>
              simp [hsucc, harts] at h
              refine ⟨status, ?_, hsucc⟩
              rw [← h.2, hs, List.isEmpty_iff.mp harts]
            | false =>
              simp [hsucc, harts] at h
              exact ih (page + 1) (acc ++ arts) res p h

/-- A server whose first page holds one article and whose later pages are
empty (all replies succeed with status 200). -/
def srvOnePage : Nat → PageReply := fun page =>
  if page = 1 then .reply 200 (some [sampleRustTips]) else .reply 200 (some [])

/-- A server whose every page is empty. -/
def srvAllEmpty : Nat → PageReply := fun _ => .reply 200 (some [])

theorem pagination_terminates_c4_witness :
    get_my_articles srvAllEmpty 1 = some (.ok [], 1) ∧
    get_my_articles srvOnePage 2 = some (.ok [sampleRustTips], 2) ∧
    fetchPages srvOnePage 1 1 [] = fetchPages srvOnePage 0 2 ([] ++ [sampleRustTips]) ∧
    (∃ status, srvAllEmpty 1 = .reply status (some []) ∧ statusIsSuccess status = true) :=
  ⟨pagination_terminates_c4.1 srvAllEmpty 0 200 rfl rfl,
   pagination_terminates_c4.2.1 srvOnePage 0 200 200 [sampleRustTips] rfl rfl rfl
     (List.cons_ne_nil _ _) rfl,
   pagination_terminates_c4.2.2.1 srvOnePage 0 1 [] [sampleRustTips] 200 rfl rfl
     (List.cons_ne_nil _ _),
   pagination_terminates_c4.2.2.2 srvAllEmpty 1 1 [] [] 1 rfl⟩

/-- C5: when the full fetch fails, the article-acquisition step of `main`
leaves the cache file exactly as it was — `save_articles_cache` runs only
after `get_my_articles` succeeds. -/
theorem fetch_failure_preserves_cache_c5 (refresh : Bool) (server : Nat → PageReply)
    (fuel : Nat) (fs : CacheFileState) (e : FetchError) (n : Nat)
    (hfail : get_my_articles server fuel = some (.error e, n))
    (result : AcquireOutcome × CacheFileState)
    (hrun : acquireArticles refresh server fuel fs = some result) :
    result.2 = fs := by
  unfold acquireArticles at hrun
  cases hls : load_articles_cache fs with
  | ok cached =>
    cases hb : refresh || cached.isEmpty with
    | true =>
      simp [hls, hb, hfail] at hrun
      rw [← hrun]
    | false =>
      simp [hls, hb] at hrun
      rw [← hrun]
  | error msg =>
    simp [hls, hfail] at hrun
    rw [← hrun]

/-- The cache file state used in the C5 witness: a valid cached list. -/
def fsWithKotlin : CacheFileState := save_articles_cache [sampleKotlinGuide]

theorem fetch_failure_preserves_cache_c5_witness :
    get_my_articles srvNotFound 1 = some (.error (.badStatus 404), 1) ∧
    acquireArticles true srvNotFound 1 fsWithKotlin =
      some (.fetchFailed (.badStatus 404), fsWithKotlin) ∧
    (AcquireOutcome.fetchFailed (.badStatus 404), fsWithKotlin).2 = fsWithKotlin :=
  ⟨rfl, rfl,
   fetch_failure_preserves_cache_c5 true srvNotFound 1 fsWithKotlin
     (.badStatus 404) 1 rfl _ rfl⟩

/-- C6: loading an absent cache file yields the empty list rather than an
error, and a present cache file whose content is not a valid JSON array of
articles (including unparseable text) yields an error. -/
theorem cache_load_absent_malformed_c6 :
    load_articles_cache .absent = .ok [] ∧
    (∀ v : JsonVal, articlesFromJson v = none →
      load_articles_cache (.json v) = .error "Failed to parse cache file") ∧
    load_articles_cache .malformedText = .error "Failed to parse cache file" := by
  refine ⟨rfl, ?_, rfl⟩
  intro v h
  simp [load_articles_cache, h]

theorem cache_load_absent_malformed_c6_witness :
    articlesFromJson (JsonVal.num 0) = none ∧
    load_articles_cache (.json (JsonVal.num 0)) = .error "Failed to parse cache file" :=
  ⟨rfl, cache_load_absent_malformed_c6.2.1 (JsonVal.num 0) rfl⟩

theorem asOptStr_optStrToJson (o : Option String) : asOptStr (optStrToJson o) = some o := by
  cases o <;> rfl

theorem strListOfJson_map (ts : List String) :
    strListOfJson (ts.map JsonVal.str) = some ts := by
  induction ts with
  | nil => rfl
  | cons t rest ih => simp [strListOfJson, ih]

theorem asOptTags_optTagsToJson (t : Option (List String)) :
    asOptTags (optTagsToJson t) = some t := by
  cases t with
  | none => rfl
  | some ts => simp [optTagsToJson, asOptTags, strListOfJson_map]

theorem articleFromJson_toJson (a : Article) :
    articleFromJson (articleToJson a) = some a := by
  obtain ⟨id, title, description, body_markdown, url, canonical_url, url_with_preview,
    published, created_at, updated_at, tags, slug, ⟨username⟩⟩ := a
  have key : articleFromJson (articleToJson ⟨id, title, description, body_markdown, url,
        canonical_url, url_with_preview, published, created_at, updated_at, tags, slug,
        ⟨username⟩⟩)
      = (asOptTags (optTagsToJson tags)).bind fun t =>
          some ⟨id, title, description, body_markdown, url, canonical_url,
            url_with_preview, published, created_at, updated_at, t, slug, ⟨username⟩⟩ := by
    cases description <;> cases body_markdown <;> cases canonical_url <;>
      cases url_with_preview <;> cases created_at <;> cases updated_at <;> rfl
  rw [key, asOptTags_optTagsToJson]
  rfl

theorem articleListFromJson_map (l : List Article) :
    articleListFromJson (l.map articleToJson) = some l := by
  induction l with
  | nil => rfl
  | cons a rest ih => simp [articleListFromJson, articleFromJson_toJson, ih]

/-- C8: saving any article list — including articles with no body and no
tags — and loading it back yields the identical list, every field of every
article (and its embedded author) preserved, in order. -/
theorem cache_round_trip_c8 (articles : List Article) :
    load_articles_cache (save_articles_cache articles) = .ok articles := by
  simp [load_articles_cache, save_articles_cache, articlesFromJson, articlesToJson,
    articleListFromJson_map]

example : load_articles_cache (save_articles_cache sampleArticles) = .ok sampleArticles := by
  rfl

end Dtdrafts
